import Mathlib

/-!
Verification development for the Spokestack text-to-speech provider
(`homeassistant/components/spokestack/tts.py` and `const.py`).

The provider is a thin client over one remote API: it builds a GraphQL-style
request body, signs it with HMAC-SHA256, POSTs it, extracts a stream URL from
the JSON response, and downloads the audio bytes from that URL.

The embedding below models:
  * bytes as `List Nat` (each entry a byte value),
  * SHA-256 / HMAC-SHA256 / base64 / UTF-8 encoding concretely (the code
    calls `hashlib.sha256`, `hmac`, `base64.b64encode`, `str.encode`),
  * parsed JSON values as an inductive `Json` with Python truthiness and
    Python `dict.get` semantics (attribute errors on non-dict receivers),
  * the two HTTP exchanges as an explicit environment: the outcome of the
    submit POST and, per URL, the outcome of the download GET,
  * `uuid.UUID(id_str)` (the `hex=` constructor path of CPython) for the
    client-id validation in the platform schema.

Real time is out of scope: the 10-second `async_timeout` bounds are modelled
only through the possible outcome "the call raised `asyncio.TimeoutError` /
`aiohttp.ClientError`", which the except-clauses treat identically.
-/

namespace Spokestack

/-- Byte sequences (Python `bytes`) as lists of byte values. -/
abbrev ByteSeq := List Nat

/-! ### SHA-256 (`hashlib.sha256`) -/

/-- Truncation to a 32-bit word. -/
def w32 (n : Nat) : Nat := n % 4294967296

/-- Right rotation of a 32-bit word (argument assumed `< 2^32`). -/
def rotr32 (x n : Nat) : Nat := (x >>> n) ||| w32 (x <<< (32 - n))

/-- SHA-256 big sigma 0. -/
def bsig0 (x : Nat) : Nat := rotr32 x 2 ^^^ rotr32 x 13 ^^^ rotr32 x 22

/-- SHA-256 big sigma 1. -/
def bsig1 (x : Nat) : Nat := rotr32 x 6 ^^^ rotr32 x 11 ^^^ rotr32 x 25

/-- SHA-256 small sigma 0. -/
def ssig0 (x : Nat) : Nat := rotr32 x 7 ^^^ rotr32 x 18 ^^^ (x >>> 3)

/-- SHA-256 small sigma 1. -/
def ssig1 (x : Nat) : Nat := rotr32 x 17 ^^^ rotr32 x 19 ^^^ (x >>> 10)

/-- The 64 SHA-256 round constants of FIPS 180-4, as decimal literals; the
test-vector theorems below check them. -/
def shaK : List Nat :=
  [1116352408, 1899447441, 3049323471, 3921009573, 961987163, 1508970993,
   2453635748, 2870763221, 3624381080, 310598401, 607225278, 1426881987,
   1925078388, 2162078206, 2614888103, 3248222580, 3835390401, 4022224774,
   264347078, 604807628, 770255983, 1249150122, 1555081692, 1996064986,
   2554220882, 2821834349, 2952996808, 3210313671, 3336571891, 3584528711,
   113926993, 338241895, 666307205, 773529912, 1294757372, 1396182291,
   1695183700, 1986661051, 2177026350, 2456956037, 2730485921, 2820302411,
   3259730800, 3345764771, 3516065817, 3600352804, 4094571909, 275423344,
   430227734, 506948616, 659060556, 883997877, 958139571, 1322822218,
   1537002063, 1747873779, 1955562222, 2024104815, 2227730452, 2361852424,
   2428436474, 2756734187, 3204031479, 3329325298]

/-- The eight working variables of the SHA-256 compression function. -/
structure Sha8 where
  a : Nat
  b : Nat
  c : Nat
  d : Nat
  e : Nat
  f : Nat
  g : Nat
  h : Nat
deriving DecidableEq

/-- Initial SHA-256 hash state. -/
def shaH0 : Sha8 :=
  ⟨0x6a09e667, 0xbb67ae85, 0x3c6ef372, 0xa54ff53a, 0x510e527f, 0x9b05688c, 0x1f83d9ab, 0x5be0cd19⟩

/-- One SHA-256 round, fed a pair (round constant, schedule word). -/
def shaRound (s : Sha8) (kw : Nat × Nat) : Sha8 :=
  let ch := (s.e &&& s.f) ^^^ ((0xffffffff ^^^ s.e) &&& s.g)
  let mj := (s.a &&& s.b) ^^^ (s.a &&& s.c) ^^^ (s.b &&& s.c)
  let t1 := w32 (s.h + bsig1 s.e + ch + kw.1 + kw.2)
  let t2 := w32 (bsig0 s.a + mj)
  ⟨w32 (t1 + t2), s.a, s.b, s.c, w32 (s.d + t1), s.e, s.f, s.g⟩

/-- Extend a 16-word block by `n` further schedule words. -/
def extendWords : Nat → List Nat → List Nat
  | 0, acc => acc
  | n + 1, acc =>
    let len := acc.length
    let nw := w32 (ssig1 (acc.getD (len - 2) 0) + acc.getD (len - 7) 0 +
      ssig0 (acc.getD (len - 15) 0) + acc.getD (len - 16) 0)
    extendWords n (acc ++ [nw])

/-- SHA-256 compression of one 16-word block into the running state. -/
def compressBlock (s : Sha8) (block : List Nat) : Sha8 :=
  let ws := extendWords 48 block
  let t := (shaK.zip ws).foldl shaRound s
  ⟨w32 (s.a + t.a), w32 (s.b + t.b), w32 (s.c + t.c), w32 (s.d + t.d),
   w32 (s.e + t.e), w32 (s.f + t.f), w32 (s.g + t.g), w32 (s.h + t.h)⟩

/-- Process a padded message, given as a list of 32-bit words, block by block. -/
def processBlocks (s : Sha8) : List Nat → Sha8
  | w0 :: w1 :: w2 :: w3 :: w4 :: w5 :: w6 :: w7 ::
    w8 :: w9 :: w10 :: w11 :: w12 :: w13 :: w14 :: w15 :: rest =>
    processBlocks (compressBlock s [w0, w1, w2, w3, w4, w5, w6, w7,
      w8, w9, w10, w11, w12, w13, w14, w15]) rest
  | _ => s

/-- SHA-256 padding: a `0x80` byte, zeros to 56 mod 64, then the bit length
as eight big-endian bytes. -/
def sha256pad (msg : ByteSeq) : ByteSeq :=
  msg ++ 128 :: List.replicate ((119 - msg.length % 64) % 64) 0 ++
    (List.range 8).map (fun i => ((msg.length * 8) >>> (56 - 8 * i)) % 256)

/-- Group bytes into big-endian 32-bit words. -/
def bytesToWords : ByteSeq → List Nat
  | b0 :: b1 :: b2 :: b3 :: rest =>
    ((b0 <<< 24) ||| (b1 <<< 16) ||| (b2 <<< 8) ||| b3) :: bytesToWords rest
  | _ => []

/-- A 32-bit word as four big-endian bytes. -/
def wordToBytes (w : Nat) : ByteSeq :=
  [(w >>> 24) % 256, (w >>> 16) % 256, (w >>> 8) % 256, w % 256]

/-- SHA-256 of a byte sequence, as the 32 digest bytes. -/
def sha256 (msg : ByteSeq) : ByteSeq :=
  let s := processBlocks shaH0 (bytesToWords (sha256pad msg))
  wordToBytes s.a ++ wordToBytes s.b ++ wordToBytes s.c ++ wordToBytes s.d ++
    wordToBytes s.e ++ wordToBytes s.f ++ wordToBytes s.g ++ wordToBytes s.h

/-! ### HMAC-SHA256 (`hmac.new(secret, body, hashlib.sha256)`) -/

/-- HMAC-SHA256: keys longer than the 64-byte block are hashed first, then
the key is zero-padded to 64 bytes and used with the usual inner and outer
pads. -/
def hmacSha256 (key msg : ByteSeq) : ByteSeq :=
  let k0 := if key.length > 64 then sha256 key else key
  let kp := k0 ++ List.replicate (64 - k0.length) 0
  sha256 ((kp.map (fun b => b ^^^ 92)) ++ sha256 ((kp.map (fun b => b ^^^ 54)) ++ msg))

/-! ### base64 (`base64.b64encode(...).decode("utf-8")`) -/

/-- The base64 alphabet, by 6-bit value. -/
def b64Char (n : Nat) : Char :=
  if n < 26 then Char.ofNat (65 + n)
  else if n < 52 then Char.ofNat (97 + (n - 26))
  else if n < 62 then Char.ofNat (48 + (n - 52))
  else if n = 62 then '+' else '/'

/-- Standard base64 encoding with `=` padding. -/
def base64Encode : ByteSeq → String
  | b0 :: b1 :: b2 :: rest =>
    let x := (b0 <<< 16) ||| (b1 <<< 8) ||| b2
    String.mk [b64Char (x >>> 18), b64Char ((x >>> 12) % 64),
      b64Char ((x >>> 6) % 64), b64Char (x % 64)] ++ base64Encode rest
  | [b0, b1] =>
    let x := (b0 <<< 16) ||| (b1 <<< 8)
    String.mk [b64Char (x >>> 18), b64Char ((x >>> 12) % 64), b64Char ((x >>> 6) % 64)] ++ "="
  | [b0] =>
    let x := b0 <<< 16
    String.mk [b64Char (x >>> 18), b64Char ((x >>> 12) % 64)] ++ "=="
  | [] => ""

/-! ### UTF-8 (`str.encode("utf-8")`) -/

/-- UTF-8 encoding of one scalar value. -/
def utf8EncodeChar (c : Char) : ByteSeq :=
  let n := c.toNat
  if n < 128 then [n]
  else if n < 2048 then [192 + n / 64, 128 + n % 64]
  else if n < 65536 then [224 + n / 4096, 128 + (n / 64) % 64, 128 + n % 64]
  else [240 + n / 262144, 128 + (n / 4096) % 64, 128 + (n / 64) % 64, 128 + n % 64]

/-- UTF-8 encoding of a string. -/
def utf8Encode (s : String) : ByteSeq :=
  (s.data.map utf8EncodeChar).flatten

/-! ### Parsed JSON values

`aiohttp`'s `response.json()` yields Python values built from `dict`, `list`,
`str`, numbers, booleans and `None`. Numbers are modelled as integers (none
of the behaviour verified here depends on floats). `Json.null` stands both
for JSON `null` and for the Python `None` that `dict.get` returns when a key
is absent — the code treats the two identically (both are falsy and neither
is a `dict`). -/

inductive Json where
  | null
  | bool (b : Bool)
  | num (n : Int)
  | str (s : String)
  | arr (elems : List Json)
  | obj (fields : List (String × Json))

/-- Python truthiness of a parsed JSON value (`if not stream_url`). -/
def truthy : Json → Bool
  | .null => false
  | .bool b => b
  | .num n => n != 0
  | .str s => !s.isEmpty
  | .arr elems => !elems.isEmpty
  | .obj fields => !fields.isEmpty

/-- Python `receiver.get(key, default)`.  On a non-`dict` receiver the
attribute lookup `.get` raises `AttributeError` (modelled as `.error ()`),
which none of the except-clauses in `tts.py` catch.  A `key` of `none`
models passing Python `None` as the key: a JSON-parsed `dict` has only
string keys, so the default is returned. -/
def jsonGet (j : Json) (key : Option String) (dflt : Json) : Except Unit Json :=
  match j with
  | .obj fields =>
    match key with
    | some k => .ok ((fields.lookup k).getD dflt)
    | none => .ok dflt
  | _ => .error ()

/-- Building a Python `dict` literal: a later entry with an already-present
key overwrites the earlier value in place (CPython keeps the original
insertion position). -/
def dictInsert (fields : List (String × Json)) (k : String) (v : Json) :
    List (String × Json) :=
  if fields.any (fun p => p.1 == k) then
    fields.map (fun p => if p.1 == k then (k, v) else p)
  else fields ++ [(k, v)]

/-! ### `json.dumps` (defaults: `ensure_ascii=True`, separators `", "`, `": "`) -/

/-- Four lowercase hex digits, for `\uXXXX` escapes. -/
def hex4 (n : Nat) : String :=
  let d := fun k => Char.ofNat (if (n >>> k) % 16 < 10 then 48 + (n >>> k) % 16 else 87 + (n >>> k) % 16)
  String.mk [d 12, d 8, d 4, d 0]

/-- The `json.dumps` escaping of one character (`ensure_ascii=True`). -/
def jsonEscapeChar (c : Char) : String :=
  if c = '"' then "\\\""
  else if c = '\\' then "\\\\"
  else if c = '\n' then "\\n"
  else if c = '\t' then "\\t"
  else if c = '\r' then "\\r"
  else if c = Char.ofNat 8 then "\\b"
  else if c = Char.ofNat 12 then "\\f"
  else if c.toNat < 32 then "\\u" ++ hex4 c.toNat
  else if c.toNat < 127 then String.mk [c]
  else if c.toNat < 65536 then "\\u" ++ hex4 c.toNat
  else
    "\\u" ++ hex4 (55296 + (c.toNat - 65536) / 1024) ++
    "\\u" ++ hex4 (56320 + (c.toNat - 65536) % 1024)

/-- A JSON string literal as `json.dumps` renders it. -/
def jsonQuote (s : String) : String :=
  "\"" ++ String.join (s.data.map jsonEscapeChar) ++ "\""

mutual

/-- Serialization `json.dumps` with its default separators and escaping. -/
def jsonDumps : Json → String
  | .null => "null"
  | .bool true => "true"
  | .bool false => "false"
  | .num n => toString n
  | .str s => jsonQuote s
  | .arr elems => "[" ++ jsonDumpsList elems ++ "]"
  | .obj fields => "\x7b" ++ jsonDumpsFields fields ++ "\x7d"

/-- Array elements, comma-separated. -/
def jsonDumpsList : List Json → String
  | [] => ""
  | [x] => jsonDumps x
  | x :: xs => jsonDumps x ++ ", " ++ jsonDumpsList xs

/-- Object members, comma-separated, `": "` between key and value. -/
def jsonDumpsFields : List (String × Json) → String
  | [] => ""
  | [(k, v)] => jsonQuote k ++ ": " ++ jsonDumps v
  | (k, v) :: xs => jsonQuote k ++ ": " ++ jsonDumps v ++ ", " ++ jsonDumpsFields xs

end

/-! ### `const.py` -/

def DEFAULT_LANG : String := "en"
def DEFAULT_MODE : String := "text"
def DEFAULT_VOICE : String := "demo-male"

/-- The fixed mode-to-operation lookup `GRAPHQL_METHODS`; `.get(mode)` on the
Python dict returns `None` outside the three keys. -/
def GRAPHQL_METHODS (mode : String) : Option String :=
  List.lookup mode
    [("markdown", "synthesizeMarkdown"), ("ssml", "synthesizeSsml"), ("text", "synthesizeText")]

/-! ### `tts.py` module constants -/

def SPOKESTACK_URL : String := "https://api.spokestack.io/v1"
def HTTP_OK : Nat := 200
def SUPPORTED_LANGUAGES : List String := ["en", "en-us"]
def SUPPORTED_MODES : List String := ["markdown", "ssml", "text"]

/-! ### The provider and one call's environment -/

/-- The caller-supplied options `dict` of `async_get_tts_audio`, restricted to
the two keys the code reads (`options.get("voice", ...)`,
`options.get("mode", ...)`). -/
structure SynthOptions where
  voice : Option String
  mode : Option String

/-- The state `SpokestackProvider.__init__` keeps: configured language, the
validated client id, and the secret already encoded to bytes
(`config[SECRET].encode("utf-8")`). -/
structure Provider where
  lang : String
  client : String
  secret : ByteSeq

/-- Outcome of the submit POST: either a raised `asyncio.TimeoutError` /
`aiohttp.ClientError` (also covering a failing `response.json()`), or a
completed HTTP exchange with a status and a parsed JSON body (the body is
only ever read when the status is `HTTP_OK`). -/
inductive SubmitOutcome where
  | netFail
  | resp (status : Nat) (body : Json)

/-- Outcome of the download GET for a given URL: a raised timeout/client
error, or a status plus the chunks `response.content.iter_chunks()` yields
in arrival order. -/
inductive DownloadOutcome where
  | netFail
  | resp (status : Nat) (chunks : List ByteSeq)

/-- One call's network environment: what the two HTTP operations would do. -/
structure NetEnv where
  submit : SubmitOutcome
  download : String → DownloadOutcome

/-! ### Request construction (`_request_body`, `_sign`, headers) -/

/-- Python's `f"...{method}..."` on an `Optional[str]`: `None` renders as
the string `"None"`. -/
def pyShow : Option String → String
  | some s => s
  | none => "None"

/-- The GraphQL-ish query document built by `_request_body`, with the exact
whitespace of the source f-string (`\x7b`/`\x7d` are `{`/`}`). -/
def graphqlQuery (mode : String) (method : Option String) : String :=
  "\n        query HASynthesis($voice: String!, $" ++ mode ++ ": String!) \x7b\n          " ++
  pyShow method ++ "(voice: $voice, " ++ mode ++ ": $" ++ mode ++ ") \x7b\n            url\n          \x7d\n        \x7d\n        "

/-- Python `options.get("voice", DEFAULT_VOICE)`. -/
def resolvedVoice (options : SynthOptions) : String := options.voice.getD DEFAULT_VOICE

/-- Python `options.get("mode", DEFAULT_MODE)`. -/
def resolvedMode (options : SynthOptions) : String := options.mode.getD DEFAULT_MODE

/-- The `variables` dict literal `{"voice": voice, mode: message}`. When
`mode == "voice"` the second entry overwrites the first (Python dict
literal semantics). -/
def variablesDict (voice mode message : String) : List (String × Json) :=
  dictInsert [("voice", Json.str voice)] mode (Json.str message)

/-- The dict passed to `json.dumps` in `_request_body`. -/
def requestDict (message : String) (options : SynthOptions) : Json :=
  let voice := resolvedVoice options
  let mode := resolvedMode options
  let method := GRAPHQL_METHODS mode
  Json.obj [("query", Json.str (graphqlQuery mode method)),
            ("variables", Json.obj (variablesDict voice mode message))]

/-- Method `_request_body`: the serialized body and the resolved operation name. -/
def _request_body (message : String) (options : SynthOptions) : String × Option String :=
  (jsonDumps (requestDict message options), GRAPHQL_METHODS (resolvedMode options))

/-- Method `_sign`: base64 of the HMAC-SHA256 of the UTF-8 encoded body under the
stored secret bytes. -/
def _sign (secret : ByteSeq) (body : String) : String :=
  base64Encode (hmacSha256 secret (utf8Encode body))

/-- The headers of the submit POST: the `Authorization` line built by the
f-string plus the provider's constant `Content-Type` header. -/
def requestHeaders (client signature : String) : List (String × String) :=
  [("Authorization", "Spokestack " ++ client ++ ":" ++ signature),
   ("Content-Type", "application/json")]

/-! ### Response handling (`_get_stream_url`, `_read_stream`) -/

/-- Method `_get_stream_url`: `response.get("data", {}).get(method, {}).get("url")`.
Raises (`.error`) when a `.get` receiver along the chain is not a dict. -/
def _get_stream_url (response : Json) (method : Option String) : Except Unit Json := do
  let d ← jsonGet response (some "data") (Json.obj [])
  let m ← jsonGet d method (Json.obj [])
  jsonGet m (some "url") Json.null

/-- Method `_read_stream`, given the stream URL value and the environment.
`websession.get` demands a string URL — on any other value it raises a
`TypeError` that the except-clause (timeout / client errors only) does not
catch, modelled as `.error ()`.  A timeout or client error is caught and
returns Python `None` (`Option.none`); a non-OK status returns the empty
accumulator `b""`; otherwise all chunks are concatenated in order. -/
def _read_stream (env : NetEnv) (streamUrl : Json) : Except Unit (Option ByteSeq) :=
  match streamUrl with
  | .str u =>
    match env.download u with
    | .netFail => .ok none
    | .resp status chunks =>
      if status ≠ HTTP_OK then .ok (some []) else .ok (some chunks.flatten)
  | _ => .error ()

/-! ### `async_get_tts_audio` -/

/-- What a call to `async_get_tts_audio` returns to the host: the Python pair
(possibly containing `None`s), or an uncaught exception. -/
inductive PyResult where
  | ret (fmt : Option String) (dat : Option ByteSeq)
  | exn
deriving DecidableEq

/-- The observable behaviour of one call: the body and headers of the submit
POST, what the call returns, and whether the download step was entered. -/
structure CallOutcome where
  sentBody : String
  sentHeaders : List (String × String)
  result : PyResult
  downloadAttempted : Bool

/-- The call `async_get_tts_audio(message, language, options)`, as a function of the
provider state and the network environment.  `options or {}` turns an absent
options dict into an empty one.  The `language` parameter is accepted and
never read, exactly as in the source. -/
def async_get_tts_audio (p : Provider) (message language : String)
    (options : Option SynthOptions) (env : NetEnv) : CallOutcome :=
  let options := options.getD ⟨none, none⟩
  let bm := _request_body message options
  let signature := _sign p.secret bm.1
  let headers := requestHeaders p.client signature
  match env.submit with
  | .netFail => ⟨bm.1, headers, .ret none none, false⟩
  | .resp status body =>
    if status ≠ HTTP_OK then ⟨bm.1, headers, .ret none none, false⟩
    else
      match _get_stream_url body bm.2 with
      | .error _ => ⟨bm.1, headers, .exn, false⟩
      | .ok streamUrl =>
        if truthy streamUrl then
          match _read_stream env streamUrl with
          | .error _ => ⟨bm.1, headers, .exn, true⟩
          | .ok dat => ⟨bm.1, headers, .ret (some "mp3") dat, true⟩
        else ⟨bm.1, headers, .ret none none, false⟩

/-! ### `_uuid` and the platform schema's client-id validation

`_uuid(id_str)` is `str(uuid.UUID(id_str))`.  CPython's `UUID(hex=...)`
constructor removes every occurrence of `"urn:"` and then `"uuid:"`
(`str.replace`), strips `{` and `}` characters from both ends (`str.strip`),
deletes every `-`, requires the remaining string to have exactly 32
characters, and converts it with `int(hex, 16)` — which itself allows
surrounding ASCII whitespace, an optional sign, an optional `0x`/`0X`
prefix, and single underscores between digits (PEP 515).  The accepted value
must lie in `[0, 2^128)`.  `str(uuid)` renders `%032x` of the value with
hyphens in 8-4-4-4-12 positions. -/

/-- Python `str.replace("urn:", "")`: delete non-overlapping occurrences, left to
right. -/
def removeUrnMark : List Char → List Char
  | 'u' :: 'r' :: 'n' :: ':' :: rest => removeUrnMark rest
  | c :: rest => c :: removeUrnMark rest
  | [] => []

/-- Python `str.replace("uuid:", "")`. -/
def removeUuidMark : List Char → List Char
  | 'u' :: 'u' :: 'i' :: 'd' :: ':' :: rest => removeUuidMark rest
  | c :: rest => c :: removeUuidMark rest
  | [] => []

/-- Python `str.replace("-", "")`. -/
def removeHyphens : List Char → List Char
  | '-' :: rest => removeHyphens rest
  | c :: rest => c :: removeHyphens rest
  | [] => []

/-- An opening or closing curly brace. -/
def isBrace (c : Char) : Bool := c = Char.ofNat 123 || c = Char.ofNat 125

/-- Python `str.strip("{}")`: drop leading and trailing braces. -/
def stripBraces (l : List Char) : List Char :=
  ((l.dropWhile isBrace).reverse.dropWhile isBrace).reverse

/-- ASCII whitespace stripped by `int()`. -/
def isPyWs (c : Char) : Bool :=
  c = ' ' || c = '\t' || c = '\n' || c = '\r' || c = Char.ofNat 11 || c = Char.ofNat 12

/-- The hex digits `int(_, 16)` accepts, with their values. -/
def hexTable : List (Char × Nat) :=
  [('0', 0), ('1', 1), ('2', 2), ('3', 3), ('4', 4), ('5', 5), ('6', 6), ('7', 7),
   ('8', 8), ('9', 9),
   ('a', 10), ('b', 11), ('c', 12), ('d', 13), ('e', 14), ('f', 15),
   ('A', 10), ('B', 11), ('C', 12), ('D', 13), ('E', 14), ('F', 15)]

/-- Value of one hex digit, if it is one. -/
def hexVal? (c : Char) : Option Nat := hexTable.lookup c

/-- Digits after the first: `('_'? digit)*`, rejecting trailing or doubled
underscores, accumulating the value. -/
def hexDigitsRest : List Char → Nat → Option Nat
  | [], acc => some acc
  | c :: rest, acc =>
    if c = '_' then
      match rest with
      | [] => none
      | d :: rest2 =>
        match hexVal? d with
        | some v => hexDigitsRest rest2 (16 * acc + v)
        | none => none
    else
      match hexVal? c with
      | some v => hexDigitsRest rest (16 * acc + v)
      | none => none

/-- A nonempty underscore-grouped hex digit sequence, starting with a digit. -/
def hexDigitSeq : List Char → Option Nat
  | c :: rest =>
    match hexVal? c with
    | some v => hexDigitsRest rest v
    | none => none
  | [] => none

/-- After a `0x`/`0X` prefix a single underscore may precede the first
digit. -/
def hexAfterBase : List Char → Option Nat
  | '_' :: rest => hexDigitSeq rest
  | l => hexDigitSeq l

/-- After the optional sign: an optional `0x`/`0X` prefix, which may be
followed by a single underscore before the first digit. -/
def hexAfterSign : List Char → Option Nat
  | '0' :: 'x' :: rest => hexAfterBase rest
  | '0' :: 'X' :: rest => hexAfterBase rest
  | l => hexDigitSeq l

/-- The whitespace stripping `int()` performs on its argument. -/
def stripWs (l : List Char) : List Char :=
  ((l.dropWhile isPyWs).reverse.dropWhile isPyWs).reverse

/-- Python `int(s, 16)`: strip whitespace, optional sign, then the digit sequence. -/
def pyIntHex (l : List Char) : Option Int :=
  match stripWs l with
  | '+' :: rest => (hexAfterSign rest).map (fun n => (n : Int))
  | '-' :: rest => (hexAfterSign rest).map (fun n => -(n : Int))
  | l' => (hexAfterSign l').map (fun n => (n : Int))

/-- The character for a hex digit value, lowercase (as `%x` renders). -/
def hexDigitChar (d : Nat) : Char :=
  if d < 10 then Char.ofNat (48 + d) else Char.ofNat (87 + d)

/-- The low `k` hex digits of `n`, most significant first (zero-padded). -/
def renderHex : Nat → Nat → List Char
  | 0, _ => []
  | k + 1, n => renderHex k (n / 16) ++ [hexDigitChar (n % 16)]

/-- Rendering `str(uuid)`: `%032x` of the value, hyphenated 8-4-4-4-12. -/
def uuidCanonical (n : Nat) : String :=
  let h := renderHex 32 n
  String.mk (h.take 8 ++ '-' :: ((h.drop 8).take 4) ++ '-' :: ((h.drop 12).take 4) ++
    '-' :: ((h.drop 16).take 4) ++ '-' :: h.drop 20)

/-- The cleaning pipeline `UUID.__init__` applies to the `hex` argument. -/
def uuidClean (l : List Char) : List Char :=
  removeHyphens (stripBraces (removeUuidMark (removeUrnMark l)))

/-- Validator `_uuid(id_str)`: `some` canonical string when `uuid.UUID(id_str)`
succeeds, `none` when it raises `ValueError` (which the voluptuous schema
turns into a rejected configuration). -/
def _uuid (s : String) : Option String :=
  let hex := uuidClean s.data
  if hex.length ≠ 32 then none
  else
    match pyIntHex hex with
    | none => none
    | some v => if 0 ≤ v ∧ v < (2 : Int) ^ 128 then some (uuidCanonical v.toNat) else none

/-- The spec-side notion of a UUID-formatted string, for the refinement
claim about `_uuid`: five hyphen-separated groups of 8, 4, 4, 4 and 12 hex
digits (either case).  Modelled from the spec: "client ID (must parse as a
UUID; stored as its canonical string form)". -/
def UuidShape (l : List Char) : Prop :=
  ∃ g1 g2 g3 g4 g5 : List Char,
    g1.length = 8 ∧ g2.length = 4 ∧ g3.length = 4 ∧ g4.length = 4 ∧ g5.length = 12 ∧
    (∀ c ∈ g1 ++ g2 ++ g3 ++ g4 ++ g5, (hexVal? c).isSome) ∧
    l = g1 ++ '-' :: g2 ++ '-' :: g3 ++ '-' :: g4 ++ '-' :: g5

/-! ### Concrete scenario data shared by several theorems -/

/-- A provider with a validated client id and the secret bytes of
`"top-secret"`. -/
def demoProvider : Provider :=
  ⟨"en", "123e4567-e89b-12d3-a456-426614174000", utf8Encode "top-secret"⟩

/-- The successful submit response of the spec's end-to-end scenario. -/
def goodSubmitJson : Json :=
  Json.obj [("data", Json.obj [("synthesizeText", Json.obj [("url", Json.str "http://stream/1")])])]

end Spokestack

/-! ## Theorems -/

namespace Spokestack

/-! ### Generic list helpers -/

/-- A successful assoc-list lookup comes from a member pair. -/
theorem lookup_mem {l : List (Char × Nat)} {c : Char} {v : Nat}
    (h : l.lookup c = some v) : (c, v) ∈ l := by
  induction l with
  | nil => simp [List.lookup] at h
  | cons p rest ih =>
    obtain ⟨k, b⟩ := p
    rw [List.lookup] at h
    cases hk : (c == k) with
    | true =>
      rw [hk] at h
      simp at h
      have hck : c = k := by simpa using hk
      subst hck
      subst h
      exact List.mem_cons_self _ _
    | false =>
      rw [hk] at h
      simp at h
      exact List.mem_cons_of_mem _ (ih h)

/-- Taking `length` of the left part of an append. -/
theorem take_append_left : ∀ (a b : List Char), (a ++ b).take a.length = a
  | [], _ => rfl
  | c :: a, b => by simpa using take_append_left a b

/-- Dropping `length` of the left part of an append. -/
theorem drop_append_left : ∀ (a b : List Char), (a ++ b).drop a.length = b
  | [], _ => rfl
  | c :: a, b => by simpa using drop_append_left a b

/-! ### Facts about the hex digit table -/

/-- Everything the development needs about each entry of `hexTable`, checked
by evaluation over the 22 entries. -/
theorem hexTable_facts : ∀ p ∈ hexTable,
    p.2 < 16 ∧ hexDigitChar p.2 = p.1.toLower ∧
    p.1 ≠ '-' ∧ p.1 ≠ '_' ∧ p.1 ≠ '+' ∧ p.1 ≠ ':' ∧ p.1 ≠ 'x' ∧ p.1 ≠ 'X' ∧
    isBrace p.1 = false ∧ isPyWs p.1 = false := by decide

/-- Unpacked form of `hexTable_facts` for a digit known through `hexVal?`. -/
theorem hexVal_facts {c : Char} {v : Nat} (h : hexVal? c = some v) :
    v < 16 ∧ hexDigitChar v = c.toLower ∧
    c ≠ '-' ∧ c ≠ '_' ∧ c ≠ '+' ∧ c ≠ ':' ∧ c ≠ 'x' ∧ c ≠ 'X' ∧
    isBrace c = false ∧ isPyWs c = false :=
  hexTable_facts (c, v) (lookup_mem h)

/-! ### HMAC key padding -/

/-- Appending a zero byte to a key shorter than the 64-byte HMAC block does
not change the padded key, hence not the MAC: the fundamental reason the
"changing the secret changes the signature" claim fails. -/
theorem hmacSha256_append_zero (key msg : ByteSeq) (h : key.length < 64) :
    hmacSha256 (key ++ [0]) msg = hmacSha256 key msg := by
  have hlen : (key ++ [0]).length = key.length + 1 := by simp
  have hpad : (key ++ [0]) ++ List.replicate (64 - (key.length + 1)) 0 =
      key ++ List.replicate (64 - key.length) 0 := by
    have h64 : 64 - key.length = (64 - (key.length + 1)) + 1 := by omega
    rw [h64, List.append_assoc]
    congr 1
  rw [hmacSha256, hmacSha256]
  rw [if_neg (by omega), if_neg (by omega)]
  rw [hlen, hpad]

/-! ### Validation of the crypto layer against published test vectors -/

set_option maxRecDepth 40000 in
/-- FIPS 180-4 test vector: SHA-256 of the empty message. -/
theorem sha256_empty_vector :
    sha256 [] = [227, 176, 196, 66, 152, 252, 28, 20, 154, 251, 244, 200, 153, 111, 185, 36,
      39, 174, 65, 228, 100, 155, 147, 76, 164, 149, 153, 27, 120, 82, 184, 85] := by decide

set_option maxRecDepth 40000 in
/-- FIPS 180-4 test vector: SHA-256 of `"abc"`. -/
theorem sha256_abc_vector :
    sha256 (utf8Encode "abc") = [186, 120, 22, 191, 143, 1, 207, 234, 65, 65, 64, 222, 93,
      174, 34, 35, 176, 3, 97, 163, 150, 23, 122, 156, 180, 16, 255, 97, 242, 0, 21, 173] := by
  decide

set_option maxRecDepth 40000 in
/-- RFC 4231 test case 1 for HMAC-SHA256 (key = twenty `0x0b` bytes, data =
`"Hi There"`). -/
theorem hmacSha256_rfc4231_case1 :
    hmacSha256 (List.replicate 20 11) (utf8Encode "Hi There") =
      [176, 52, 76, 97, 216, 219, 56, 83, 92, 168, 175, 206, 175, 11, 241, 43, 136, 29, 194, 0,
       201, 131, 61, 167, 38, 233, 55, 108, 46, 50, 207, 247] := by decide

/-! ### Claim C7: the signature -/

set_option maxRecDepth 40000 in
/-- Claim C7 (corrected): the signature equals base64 of the HMAC-SHA256 of
the body bytes under the secret, and is deterministic; on the tested inputs
changing one byte of the body or of the secret changes the signature — but
not universally: appending a zero byte to a secret shorter than the 64-byte
HMAC block leaves every signature unchanged. -/
theorem sign_deterministic_base64_hmac :
    (∀ secret body, _sign secret body = base64Encode (hmacSha256 secret (utf8Encode body))) ∧
    (∀ s1 s2 b1 b2, s1 = s2 → b1 = b2 → _sign s1 b1 = _sign s2 b2) ∧
    _sign [1] "a" ≠ _sign [1] "b" ∧
    _sign [1] "a" ≠ _sign [2] "a" ∧
    (∀ secret body, secret.length < 64 → _sign (secret ++ [0]) body = _sign secret body) := by
  refine ⟨fun _ _ => rfl, ?_, by decide, by decide, ?_⟩
  · intro s1 s2 b1 b2 hs hb
    rw [hs, hb]
  · intro secret body h
    unfold _sign
    rw [hmacSha256_append_zero _ _ h]

/-- Claim C7, counterexample to the claim as stated: the secrets
`b"top-secret"` and `b"top-secret\x00"` differ, yet produce the same
signature for the same body (HMAC zero-pads short keys). -/
theorem sign_zero_pad_collision :
    utf8Encode "top-secret" ≠ utf8Encode "top-secret" ++ [0] ∧
    _sign (utf8Encode "top-secret" ++ [0]) "payload" = _sign (utf8Encode "top-secret") "payload" := by
  constructor
  · decide
  · unfold _sign
    rw [hmacSha256_append_zero _ _ (by decide)]

/-- Witness for C7 at concrete inputs. -/
theorem sign_deterministic_base64_hmac_witness :
    _sign [3] "abc" = _sign [3] "abc" ∧ _sign ([7] ++ [0]) "abc" = _sign [7] "abc" :=
  ⟨sign_deterministic_base64_hmac.2.1 [3] [3] "abc" "abc" rfl rfl,
   sign_deterministic_base64_hmac.2.2.2.2 [7] "abc" (by decide)⟩

/-! ### Outcome helpers for `async_get_tts_audio` -/

/-- A timeout or client error on the submit POST yields the failure pair. -/
theorem outcome_submit_netFail (p : Provider) (message language : String)
    (options : Option SynthOptions) (env : NetEnv) (h : env.submit = .netFail) :
    (async_get_tts_audio p message language options env).result = .ret none none ∧
    (async_get_tts_audio p message language options env).downloadAttempted = false := by
  unfold async_get_tts_audio
  rw [h]
  exact ⟨rfl, rfl⟩

/-- A submit response with a non-OK status yields the failure pair. -/
theorem outcome_submit_badStatus (p : Provider) (message language : String)
    (options : Option SynthOptions) (env : NetEnv) (status : Nat) (body : Json)
    (h : env.submit = .resp status body) (hne : status ≠ HTTP_OK) :
    (async_get_tts_audio p message language options env).result = .ret none none ∧
    (async_get_tts_audio p message language options env).downloadAttempted = false := by
  unfold async_get_tts_audio
  rw [h]
  simp only [if_pos hne]
  constructor <;> first | rfl | trivial

/-- A 200 submit response whose extracted stream-URL value is falsy yields
the failure pair without entering the download step. -/
theorem outcome_falsy_url (p : Provider) (message language : String)
    (options : Option SynthOptions) (env : NetEnv) (body v : Json)
    (hsub : env.submit = .resp HTTP_OK body)
    (hurl : _get_stream_url body (_request_body message (options.getD ⟨none, none⟩)).2 = .ok v)
    (hfalsy : truthy v = false) :
    (async_get_tts_audio p message language options env).result = .ret none none ∧
    (async_get_tts_audio p message language options env).downloadAttempted = false := by
  simp only [async_get_tts_audio]
  rw [hsub]
  simp only [if_neg (by simp : ¬ HTTP_OK ≠ HTTP_OK)]
  rw [hurl]
  simp only [hfalsy]
  constructor <;> first | rfl | trivial

/-- A 200 submit response with a truthy string URL whose download raises a
timeout or client error yields `("mp3", None)`. -/
theorem outcome_download_netFail (p : Provider) (message language : String)
    (options : Option SynthOptions) (env : NetEnv) (body : Json) (u : String)
    (hsub : env.submit = .resp HTTP_OK body)
    (hurl : _get_stream_url body (_request_body message (options.getD ⟨none, none⟩)).2 =
      .ok (Json.str u))
    (htr : truthy (Json.str u) = true)
    (hd : env.download u = .netFail) :
    (async_get_tts_audio p message language options env).result = .ret (some "mp3") none ∧
    (async_get_tts_audio p message language options env).downloadAttempted = true := by
  simp only [async_get_tts_audio]
  rw [hsub]
  simp only [if_neg (by simp : ¬ HTTP_OK ≠ HTTP_OK)]
  rw [hurl]
  simp only [htr, if_pos]
  simp only [_read_stream]
  rw [hd]
  constructor <;> first | rfl | trivial

/-- A 200 submit response with a truthy string URL whose download completes
with a non-OK status yields `("mp3", b"")`. -/
theorem outcome_download_badStatus (p : Provider) (message language : String)
    (options : Option SynthOptions) (env : NetEnv) (body : Json) (u : String)
    (st : Nat) (chunks : List ByteSeq)
    (hsub : env.submit = .resp HTTP_OK body)
    (hurl : _get_stream_url body (_request_body message (options.getD ⟨none, none⟩)).2 =
      .ok (Json.str u))
    (htr : truthy (Json.str u) = true)
    (hd : env.download u = .resp st chunks) (hne : st ≠ HTTP_OK) :
    (async_get_tts_audio p message language options env).result = .ret (some "mp3") (some []) ∧
    (async_get_tts_audio p message language options env).downloadAttempted = true := by
  simp only [async_get_tts_audio]
  rw [hsub]
  simp only [if_neg (by simp : ¬ HTTP_OK ≠ HTTP_OK)]
  rw [hurl]
  simp only [htr, if_pos]
  simp only [_read_stream]
  rw [hd]
  simp only [if_pos hne]
  constructor <;> first | rfl | trivial

/-- With a `None` method (unknown mode), `_get_stream_url` either raises
(non-dict along the chain) or returns Python `None`: a dict lookup with key
`None` always falls back to the default. -/
theorem stream_url_none_total (body : Json) :
    _get_stream_url body none = .error () ∨ _get_stream_url body none = .ok Json.null := by
  cases body with
  | obj fields =>
    have h1 : jsonGet (Json.obj fields) (some "data") (Json.obj []) =
        Except.ok ((fields.lookup "data").getD (Json.obj [])) := rfl
    cases hd : (fields.lookup "data").getD (Json.obj []) with
    | obj f2 => right; unfold _get_stream_url; rw [h1, hd]; rfl
    | null => left; unfold _get_stream_url; rw [h1, hd]; rfl
    | bool b => left; unfold _get_stream_url; rw [h1, hd]; rfl
    | num n => left; unfold _get_stream_url; rw [h1, hd]; rfl
    | str s => left; unfold _get_stream_url; rw [h1, hd]; rfl
    | arr elems => left; unfold _get_stream_url; rw [h1, hd]; rfl
  | null => left; rfl
  | bool b => left; rfl
  | num n => left; rfl
  | str s => left; rfl
  | arr elems => left; rfl

/-! ### Claim C1: end-to-end success scenario -/

/-- Claim C1 (confirmed): for message `"Hello world"`, mode `"text"`, voice
`"demo-male"`, the request dict's `variables` are exactly
`{"voice": "demo-male", "text": "Hello world"}`, and with a submit response
`{"data": {"synthesizeText": {"url": "http://stream/1"}}}` and a download
that succeeds with chunks `b"\xff\xfb"`, `b"\x01\x02"`, the call returns
`("mp3", b"\xff\xfb\x01\x02")`. -/
theorem end_to_end_success :
    requestDict "Hello world" ⟨some "demo-male", some "text"⟩ =
      Json.obj [("query", Json.str (graphqlQuery "text" (some "synthesizeText"))),
                ("variables", Json.obj [("voice", Json.str "demo-male"),
                                        ("text", Json.str "Hello world")])] ∧
    (async_get_tts_audio demoProvider "Hello world" "en"
        (some ⟨some "demo-male", some "text"⟩)
        ⟨.resp 200 goodSubmitJson, fun _ => .resp 200 [[255, 251], [1, 2]]⟩).result =
      .ret (some "mp3") (some [255, 251, 1, 2]) ∧
    (async_get_tts_audio demoProvider "Hello world" "en"
        (some ⟨some "demo-male", some "text"⟩)
        ⟨.resp 200 goodSubmitJson, fun _ => .resp 200 [[255, 251], [1, 2]]⟩).downloadAttempted =
      true :=
  ⟨rfl, rfl, rfl⟩

/-! ### Claim C2: timeout / network failure at either step -/

/-- Claim C2 (amended): a timeout or network-level failure during the submit
step returns `(None, None)` without attempting the download; but a timeout
or network-level failure during the download step is caught inside
`_read_stream`, which returns `None`, so the call returns `("mp3", None)` —
format present, no audio.  In neither case does the exception propagate. -/
theorem net_failure_results (p : Provider) (message language : String)
    (options : Option SynthOptions) (env : NetEnv) :
    (env.submit = .netFail →
      (async_get_tts_audio p message language options env).result = .ret none none ∧
      (async_get_tts_audio p message language options env).downloadAttempted = false) ∧
    (∀ body u, env.submit = .resp HTTP_OK body →
      _get_stream_url body (_request_body message (options.getD ⟨none, none⟩)).2 =
        .ok (Json.str u) →
      truthy (Json.str u) = true →
      env.download u = .netFail →
      (async_get_tts_audio p message language options env).result = .ret (some "mp3") none ∧
      (async_get_tts_audio p message language options env).downloadAttempted = true) :=
  ⟨fun h => outcome_submit_netFail p message language options env h,
   fun body u hsub hurl htr hd =>
     outcome_download_netFail p message language options env body u hsub hurl htr hd⟩

/-- Claim C2, counterexample to the claim as stated: with a successful
submit and a network failure during the download, the call returns
`("mp3", None)`, not `(None, None)`. -/
theorem download_netfail_cex :
    (async_get_tts_audio demoProvider "Hello world" "en"
        (some ⟨some "demo-male", some "text"⟩)
        ⟨.resp 200 goodSubmitJson, fun _ => .netFail⟩).result = .ret (some "mp3") none ∧
    (async_get_tts_audio demoProvider "Hello world" "en"
        (some ⟨some "demo-male", some "text"⟩)
        ⟨.resp 200 goodSubmitJson, fun _ => .netFail⟩).result ≠ .ret none none :=
  ⟨rfl, by decide⟩

/-- Witness for C2 at concrete inputs: both failure positions exercised. -/
theorem net_failure_results_witness :
    ((async_get_tts_audio demoProvider "msg" "en" none ⟨.netFail, fun _ => .netFail⟩).result =
        .ret none none ∧
      (async_get_tts_audio demoProvider "msg" "en" none
        ⟨.netFail, fun _ => .netFail⟩).downloadAttempted = false) ∧
    ((async_get_tts_audio demoProvider "Hello world" "en" (some ⟨some "demo-male", some "text"⟩)
        ⟨.resp 200 goodSubmitJson, fun _ => .netFail⟩).result = .ret (some "mp3") none ∧
      (async_get_tts_audio demoProvider "Hello world" "en" (some ⟨some "demo-male", some "text"⟩)
        ⟨.resp 200 goodSubmitJson, fun _ => .netFail⟩).downloadAttempted = true) :=
  ⟨(net_failure_results demoProvider "msg" "en" none ⟨.netFail, fun _ => .netFail⟩).1 rfl,
   (net_failure_results demoProvider "Hello world" "en" (some ⟨some "demo-male", some "text"⟩)
      ⟨.resp 200 goodSubmitJson, fun _ => .netFail⟩).2 goodSubmitJson "http://stream/1"
      rfl rfl rfl rfl⟩

/-! ### Claim C3: non-success download status -/

/-- Claim C3 (confirmed): when the submit succeeds with a truthy stream URL
but the download GET completes with a non-OK status, the call returns
`("mp3", b"")` — the audio component is the empty byte sequence. -/
theorem download_bad_status_empty_bytes (p : Provider) (message language : String)
    (options : Option SynthOptions) (env : NetEnv) (body : Json) (u : String)
    (st : Nat) (chunks : List ByteSeq)
    (hsub : env.submit = .resp HTTP_OK body)
    (hurl : _get_stream_url body (_request_body message (options.getD ⟨none, none⟩)).2 =
      .ok (Json.str u))
    (htr : truthy (Json.str u) = true)
    (hd : env.download u = .resp st chunks) (hne : st ≠ HTTP_OK) :
    (async_get_tts_audio p message language options env).result = .ret (some "mp3") (some []) ∧
    (async_get_tts_audio p message language options env).downloadAttempted = true :=
  outcome_download_badStatus p message language options env body u st chunks hsub hurl htr hd hne

/-- Witness for C3: a 404 on the download of the end-to-end scenario. -/
theorem download_bad_status_empty_bytes_witness :
    (async_get_tts_audio demoProvider "Hello world" "en" (some ⟨some "demo-male", some "text"⟩)
        ⟨.resp 200 goodSubmitJson, fun _ => .resp 404 [[9]]⟩).result =
      .ret (some "mp3") (some []) ∧
    (async_get_tts_audio demoProvider "Hello world" "en" (some ⟨some "demo-male", some "text"⟩)
        ⟨.resp 200 goodSubmitJson, fun _ => .resp 404 [[9]]⟩).downloadAttempted = true :=
  download_bad_status_empty_bytes demoProvider "Hello world" "en"
    (some ⟨some "demo-male", some "text"⟩) ⟨.resp 200 goodSubmitJson, fun _ => .resp 404 [[9]]⟩
    goodSubmitJson "http://stream/1" 404 [[9]] rfl rfl rfl rfl (by decide)

/-! ### Claim C5: non-success submit status -/

/-- Claim C5 (confirmed): a submit POST that completes with a status other
than `HTTP_OK` makes the call return `(None, None)` (and the download is
never attempted). -/
theorem submit_bad_status_failure (p : Provider) (message language : String)
    (options : Option SynthOptions) (env : NetEnv) (status : Nat) (body : Json)
    (h : env.submit = .resp status body) (hne : status ≠ HTTP_OK) :
    (async_get_tts_audio p message language options env).result = .ret none none ∧
    (async_get_tts_audio p message language options env).downloadAttempted = false :=
  outcome_submit_badStatus p message language options env status body h hne

/-- Witness for C5: a 500 submit response. -/
theorem submit_bad_status_failure_witness :
    (async_get_tts_audio demoProvider "Hello world" "en" none
        ⟨.resp 500 Json.null, fun _ => .netFail⟩).result = .ret none none ∧
    (async_get_tts_audio demoProvider "Hello world" "en" none
        ⟨.resp 500 Json.null, fun _ => .netFail⟩).downloadAttempted = false :=
  submit_bad_status_failure demoProvider "Hello world" "en" none
    ⟨.resp 500 Json.null, fun _ => .netFail⟩ 500 Json.null rfl (by decide)

/-! ### Claim C6: missing stream URL -/

/-- Claim C6 (amended): when the submit POST returns `HTTP_OK` and the
`data.<operationName>.url` traversal completes without raising but yields a
falsy value (missing key, `null`, empty string, `0`, ...), the call returns
`(None, None)` and the download step is never attempted.  (When the
traversal meets a non-dict the call raises `AttributeError` instead, and a
truthy non-string value sends the code into the download step — see the
counterexample.) -/
theorem missing_url_failure (p : Provider) (message language : String)
    (options : Option SynthOptions) (env : NetEnv) (body v : Json)
    (hsub : env.submit = .resp HTTP_OK body)
    (hurl : _get_stream_url body (_request_body message (options.getD ⟨none, none⟩)).2 = .ok v)
    (hfalsy : truthy v = false) :
    (async_get_tts_audio p message language options env).result = .ret none none ∧
    (async_get_tts_audio p message language options env).downloadAttempted = false :=
  outcome_falsy_url p message language options env body v hsub hurl hfalsy

/-- Claim C6, counterexample to the claim as stated: a 200 submit response
whose JSON body is a list has no string URL at `data.<op>.url`, yet the call
raises `AttributeError` (`list` has no `.get`) instead of returning
`(None, None)`. -/
theorem missing_url_cex :
    _get_stream_url (Json.arr []) (some "synthesizeText") = .error () ∧
    (async_get_tts_audio demoProvider "Hello world" "en"
        (some ⟨some "demo-male", some "text"⟩)
        ⟨.resp 200 (Json.arr []), fun _ => .netFail⟩).result = .exn ∧
    (async_get_tts_audio demoProvider "Hello world" "en"
        (some ⟨some "demo-male", some "text"⟩)
        ⟨.resp 200 (Json.arr []), fun _ => .netFail⟩).result ≠ .ret none none :=
  ⟨rfl, rfl, by decide⟩

/-- Witness for C6: a 200 response whose `data` object lacks the operation
key, so the traversal yields the defaults and then `None`. -/
theorem missing_url_failure_witness :
    (async_get_tts_audio demoProvider "Hello world" "en"
        (some ⟨some "demo-male", some "text"⟩)
        ⟨.resp 200 (Json.obj [("data", Json.obj [])]), fun _ => .netFail⟩).result =
      .ret none none ∧
    (async_get_tts_audio demoProvider "Hello world" "en"
        (some ⟨some "demo-male", some "text"⟩)
        ⟨.resp 200 (Json.obj [("data", Json.obj [])]), fun _ => .netFail⟩).downloadAttempted =
      false :=
  missing_url_failure demoProvider "Hello world" "en" (some ⟨some "demo-male", some "text"⟩)
    ⟨.resp 200 (Json.obj [("data", Json.obj [])]), fun _ => .netFail⟩
    (Json.obj [("data", Json.obj [])]) Json.null rfl rfl rfl

/-! ### Claim C10: the language argument is never read -/

/-- Claim C10 (confirmed): two calls differing only in the `language`
argument have identical observable behaviour — same submitted body and
headers (hence same signature), same result, same download attempt. -/
theorem language_never_read (p : Provider) (message language1 language2 : String)
    (options : Option SynthOptions) (env : NetEnv) :
    async_get_tts_audio p message language1 options env =
      async_get_tts_audio p message language2 options env := rfl

/-! ### Claim C4: the `variables` object -/

/-- Claim C4 (amended): for every message and every mode other than
`"voice"`, the request body's `variables` object holds the message under
the mode name and the voice (here the non-empty default, options carrying
no voice) under `"voice"`.  For mode `"voice"` itself the second dict entry
overwrites the first — see the counterexample. -/
theorem request_variables_keyed (message mode : String) (hmode : mode ≠ "voice") :
    variablesDict DEFAULT_VOICE mode message =
      [("voice", Json.str DEFAULT_VOICE), (mode, Json.str message)] ∧
    (variablesDict DEFAULT_VOICE mode message).lookup mode = some (Json.str message) ∧
    (variablesDict DEFAULT_VOICE mode message).lookup "voice" = some (Json.str DEFAULT_VOICE) ∧
    DEFAULT_VOICE ≠ "" ∧
    requestDict message ⟨none, some mode⟩ =
      Json.obj [("query", Json.str (graphqlQuery mode (GRAPHQL_METHODS mode))),
                ("variables", Json.obj (variablesDict DEFAULT_VOICE mode message))] := by
  have hvm : (("voice" : String) == mode) = false := beq_eq_false_iff_ne.mpr (Ne.symm hmode)
  have hmv : ((mode : String) == "voice") = false := beq_eq_false_iff_ne.mpr hmode
  have h1 : variablesDict DEFAULT_VOICE mode message =
      [("voice", Json.str DEFAULT_VOICE), (mode, Json.str message)] := by
    unfold variablesDict dictInsert
    simp [hvm]
  refine ⟨h1, ?_, ?_, by decide, rfl⟩
  · rw [h1]
    simp [List.lookup, hmv]
  · rw [h1]
    simp [List.lookup]

/-- Claim C4, counterexample to the claim as stated: at mode `"voice"` and
the empty message, the `variables` dict collapses to a single entry whose
`"voice"` value is the (empty) message — no non-empty voice remains. -/
theorem request_variables_cex :
    variablesDict DEFAULT_VOICE "voice" "" = [("voice", Json.str "")] ∧
    ¬ ∃ v : String,
        (variablesDict DEFAULT_VOICE "voice" "").lookup "voice" = some (Json.str v) ∧
        v ≠ "" := by
  refine ⟨rfl, ?_⟩
  rintro ⟨v, hv, hne⟩
  rw [show (variablesDict DEFAULT_VOICE "voice" "").lookup "voice" = some (Json.str "")
    from rfl] at hv
  injection hv with h1
  injection h1 with h2
  exact hne h2.symm

/-- Witness for C4 at mode `"text"`. -/
theorem request_variables_keyed_witness :
    (variablesDict DEFAULT_VOICE "text" "Hello world").lookup "text" =
      some (Json.str "Hello world") ∧
    (variablesDict DEFAULT_VOICE "text" "Hello world").lookup "voice" =
      some (Json.str DEFAULT_VOICE) :=
  ⟨(request_variables_keyed "Hello world" "text" (by decide)).2.1,
   (request_variables_keyed "Hello world" "text" (by decide)).2.2.1⟩

/-! ### Claim C9: the mode-to-operation lookup -/

/-- Claim C9 (confirmed): `GRAPHQL_METHODS` maps exactly
markdown/ssml/text to their operation names, yields no operation for any
other mode, and a call with an unknown mode resolves to the failure pair
rather than raising, whatever the submit outcome is — network failure,
non-OK status, or a 200 response on which the URL traversal does not itself
raise. -/
theorem mode_operation_lookup :
    GRAPHQL_METHODS "markdown" = some "synthesizeMarkdown" ∧
    GRAPHQL_METHODS "ssml" = some "synthesizeSsml" ∧
    GRAPHQL_METHODS "text" = some "synthesizeText" ∧
    (∀ m : String, m ≠ "markdown" → m ≠ "ssml" → m ≠ "text" → GRAPHQL_METHODS m = none) ∧
    (∀ (p : Provider) (message language : String) (options : Option SynthOptions)
        (env : NetEnv),
      GRAPHQL_METHODS (resolvedMode (options.getD ⟨none, none⟩)) = none →
      (env.submit = .netFail ∨
        (∃ st b, env.submit = .resp st b ∧ st ≠ HTTP_OK) ∨
        (∃ b v, env.submit = .resp HTTP_OK b ∧ _get_stream_url b none = .ok v)) →
      (async_get_tts_audio p message language options env).result = .ret none none ∧
      (async_get_tts_audio p message language options env).downloadAttempted = false) := by
  refine ⟨rfl, rfl, rfl, ?_, ?_⟩
  · intro m h1 h2 h3
    have e1 : (m == "markdown") = false := beq_eq_false_iff_ne.mpr h1
    have e2 : (m == "ssml") = false := beq_eq_false_iff_ne.mpr h2
    have e3 : (m == "text") = false := beq_eq_false_iff_ne.mpr h3
    simp [GRAPHQL_METHODS, List.lookup, e1, e2, e3]
  · intro p message language options env hm hcase
    have hmeth : (_request_body message (options.getD ⟨none, none⟩)).2 = none := hm
    rcases hcase with h | ⟨st, b, hsub, hst⟩ | ⟨b, v, hsub, hurl⟩
    · exact outcome_submit_netFail p message language options env h
    · exact outcome_submit_badStatus p message language options env st b hsub hst
    · rcases stream_url_none_total b with herr | hok
      · rw [herr] at hurl
        exact Except.noConfusion hurl
      · rw [hok] at hurl
        injection hurl with hv
        subst hv
        refine outcome_falsy_url p message language options env b Json.null hsub ?_ rfl
        rw [hmeth]
        exact hok

/-- Witness for C9: an unregistered mode `"plain"` with a 200 submit
response whose body is a well-formed object. -/
theorem mode_operation_lookup_witness :
    GRAPHQL_METHODS "plain" = none ∧
    (async_get_tts_audio demoProvider "Hello world" "en" (some ⟨none, some "plain"⟩)
        ⟨.resp 200 goodSubmitJson, fun _ => .netFail⟩).result = .ret none none ∧
    (async_get_tts_audio demoProvider "Hello world" "en" (some ⟨none, some "plain"⟩)
        ⟨.resp 200 goodSubmitJson, fun _ => .netFail⟩).downloadAttempted = false := by
  refine ⟨mode_operation_lookup.2.2.2.1 "plain" (by decide) (by decide) (by decide), ?_⟩
  exact mode_operation_lookup.2.2.2.2 demoProvider "Hello world" "en"
    (some ⟨none, some "plain"⟩) ⟨.resp 200 goodSubmitJson, fun _ => .netFail⟩ rfl
    (Or.inr (Or.inr ⟨goodSubmitJson, Json.null, rfl, rfl⟩))

/-! ### Claim C8: `_uuid` and the client-id validation -/

/-- Digit-or-not facts packaged for a hex digit known through `isSome`. -/
theorem hex_ne_colon {c : Char} (h : (hexVal? c).isSome) : c ≠ ':' := by
  obtain ⟨v, hv⟩ := Option.isSome_iff_exists.mp h
  exact (hexVal_facts hv).2.2.2.2.2.1

theorem hex_ne_hyphen {c : Char} (h : (hexVal? c).isSome) : c ≠ '-' := by
  obtain ⟨v, hv⟩ := Option.isSome_iff_exists.mp h
  exact (hexVal_facts hv).2.2.1

theorem hex_ne_underscore {c : Char} (h : (hexVal? c).isSome) : c ≠ '_' := by
  obtain ⟨v, hv⟩ := Option.isSome_iff_exists.mp h
  exact (hexVal_facts hv).2.2.2.1

theorem hex_ne_plus {c : Char} (h : (hexVal? c).isSome) : c ≠ '+' := by
  obtain ⟨v, hv⟩ := Option.isSome_iff_exists.mp h
  exact (hexVal_facts hv).2.2.2.2.1

theorem hex_ne_x {c : Char} (h : (hexVal? c).isSome) : c ≠ 'x' ∧ c ≠ 'X' := by
  obtain ⟨v, hv⟩ := Option.isSome_iff_exists.mp h
  exact ⟨(hexVal_facts hv).2.2.2.2.2.2.1, (hexVal_facts hv).2.2.2.2.2.2.2.1⟩

theorem hex_not_brace {c : Char} (h : (hexVal? c).isSome) : isBrace c = false := by
  obtain ⟨v, hv⟩ := Option.isSome_iff_exists.mp h
  exact (hexVal_facts hv).2.2.2.2.2.2.2.2.1

theorem hex_not_ws {c : Char} (h : (hexVal? c).isSome) : isPyWs c = false := by
  obtain ⟨v, hv⟩ := Option.isSome_iff_exists.mp h
  exact (hexVal_facts hv).2.2.2.2.2.2.2.2.2

/-! #### The cleaning pipeline is the identity on hex-and-hyphen strings -/

/-- Python `replace("urn:", "")` does nothing to a string without `':'`. -/
theorem removeUrnMark_id {l : List Char} (h : ∀ c ∈ l, c ≠ ':') : removeUrnMark l = l := by
  induction l with
  | nil => rfl
  | cons c rest ih =>
    rw [removeUrnMark.eq_def]
    split
    · next _ rest2 heq =>
      exact absurd rfl (h ':' (by rw [heq]; simp))
    · next _ c2 rest2 hmiss heq =>
      obtain ⟨h1, h2⟩ := List.cons.inj heq
      rw [← h1, ← h2]
      exact congrArg (c :: ·) (ih fun x hx => h x (List.mem_cons_of_mem _ hx))
    · next _ heq => exact List.noConfusion heq

/-- Python `replace("uuid:", "")` does nothing to a string without `':'`. -/
theorem removeUuidMark_id {l : List Char} (h : ∀ c ∈ l, c ≠ ':') : removeUuidMark l = l := by
  induction l with
  | nil => rfl
  | cons c rest ih =>
    rw [removeUuidMark.eq_def]
    split
    · next _ rest2 heq =>
      exact absurd rfl (h ':' (by rw [heq]; simp))
    · next _ c2 rest2 hmiss heq =>
      obtain ⟨h1, h2⟩ := List.cons.inj heq
      rw [← h1, ← h2]
      exact congrArg (c :: ·) (ih fun x hx => h x (List.mem_cons_of_mem _ hx))
    · next _ heq => exact List.noConfusion heq

/-- List `dropWhile` does nothing when no element satisfies the predicate. -/
theorem dropWhile_id {p : Char → Bool} {l : List Char} (h : ∀ c ∈ l, p c = false) :
    l.dropWhile p = l := by
  cases l with
  | nil => rfl
  | cons c rest => simp [List.dropWhile_cons, h c (List.mem_cons_self _ _)]

/-- Python `strip("{}")` does nothing to a string with no brace anywhere. -/
theorem stripBraces_id {l : List Char} (h : ∀ c ∈ l, isBrace c = false) :
    stripBraces l = l := by
  unfold stripBraces
  rw [dropWhile_id h]
  rw [dropWhile_id (fun c hc => h c (List.mem_reverse.mp hc))]
  exact List.reverse_reverse l

/-- Python whitespace stripping of `int()` does nothing to a whitespace-free string. -/
theorem stripWs_id {l : List Char} (h : ∀ c ∈ l, isPyWs c = false) : stripWs l = l := by
  unfold stripWs
  rw [dropWhile_id h]
  rw [dropWhile_id (fun c hc => h c (List.mem_reverse.mp hc))]
  exact List.reverse_reverse l

/-- Python `replace("-", "")` drops a leading hyphen. -/
theorem removeHyphens_cons_hyphen (ys : List Char) :
    removeHyphens ('-' :: ys) = removeHyphens ys := rfl

/-- Python `replace("-", "")` keeps a non-hyphen head. -/
theorem removeHyphens_cons_ne {c : Char} (hc : c ≠ '-') (ys : List Char) :
    removeHyphens (c :: ys) = c :: removeHyphens ys := by
  rw [removeHyphens.eq_def]
  split
  · next _ rest heq =>
    exact absurd (List.cons.inj heq).1 hc
  · next _ c2 rest hmiss heq =>
    obtain ⟨h1, h2⟩ := List.cons.inj heq
    rw [← h1, ← h2]
  · next _ heq => exact List.noConfusion heq

/-- Python `replace("-", "")` passes a hyphen-free prefix through. -/
theorem removeHyphens_append {xs : List Char} (ys : List Char)
    (h : ∀ c ∈ xs, c ≠ '-') : removeHyphens (xs ++ ys) = xs ++ removeHyphens ys := by
  induction xs with
  | nil => rfl
  | cons c rest ih =>
    rw [List.cons_append, removeHyphens_cons_ne (h c (List.mem_cons_self _ _))]
    rw [ih fun x hx => h x (List.mem_cons_of_mem _ hx)]
    rfl

/-- Python `replace("-", "")` does nothing to a hyphen-free string. -/
theorem removeHyphens_id {l : List Char} (h : ∀ c ∈ l, c ≠ '-') :
    removeHyphens l = l := by
  induction l with
  | nil => rfl
  | cons c rest ih =>
    rw [removeHyphens_cons_ne (h c (List.mem_cons_self _ _))]
    rw [ih fun x hx => h x (List.mem_cons_of_mem _ hx)]

/-- On a UUID-shaped string the whole cleaning pipeline just deletes the
four hyphens. -/
theorem uuidClean_shape {g1 g2 g3 g4 g5 : List Char}
    (hx : ∀ c ∈ g1 ++ g2 ++ g3 ++ g4 ++ g5, (hexVal? c).isSome) :
    uuidClean (g1 ++ '-' :: g2 ++ '-' :: g3 ++ '-' :: g4 ++ '-' :: g5) =
      g1 ++ g2 ++ g3 ++ g4 ++ g5 := by
  have hmem : ∀ c ∈ g1 ++ '-' :: g2 ++ '-' :: g3 ++ '-' :: g4 ++ '-' :: g5,
      (hexVal? c).isSome ∨ c = '-' := by
    intro c hc
    rcases List.mem_append.mp hc with hc | hc
    · rcases List.mem_append.mp hc with hc | hc
      · rcases List.mem_append.mp hc with hc | hc
        · rcases List.mem_append.mp hc with hc | hc
          · exact Or.inl (hx c (by simp [List.mem_append, hc]))
          · rcases List.mem_cons.mp hc with hc | hc
            · exact Or.inr hc
            · exact Or.inl (hx c (by simp [List.mem_append, hc]))
        · rcases List.mem_cons.mp hc with hc | hc
          · exact Or.inr hc
          · exact Or.inl (hx c (by simp [List.mem_append, hc]))
      · rcases List.mem_cons.mp hc with hc | hc
        · exact Or.inr hc
        · exact Or.inl (hx c (by simp [List.mem_append, hc]))
    · rcases List.mem_cons.mp hc with hc | hc
      · exact Or.inr hc
      · exact Or.inl (hx c (by simp [List.mem_append, hc]))
  have hnc : ∀ c ∈ g1 ++ '-' :: g2 ++ '-' :: g3 ++ '-' :: g4 ++ '-' :: g5, c ≠ ':' := by
    intro c hc
    rcases hmem c hc with h | h
    · exact hex_ne_colon h
    · subst h; decide
  have hnb : ∀ c ∈ g1 ++ '-' :: g2 ++ '-' :: g3 ++ '-' :: g4 ++ '-' :: g5,
      isBrace c = false := by
    intro c hc
    rcases hmem c hc with h | h
    · exact hex_not_brace h
    · subst h; decide
  unfold uuidClean
  rw [removeUrnMark_id hnc, removeUuidMark_id hnc, stripBraces_id hnb]
  have hg1 : ∀ c ∈ g1, c ≠ '-' :=
    fun c hc => hex_ne_hyphen (hx c (by simp [List.mem_append, hc]))
  have hg2 : ∀ c ∈ g2, c ≠ '-' :=
    fun c hc => hex_ne_hyphen (hx c (by simp [List.mem_append, hc]))
  have hg3 : ∀ c ∈ g3, c ≠ '-' :=
    fun c hc => hex_ne_hyphen (hx c (by simp [List.mem_append, hc]))
  have hg4 : ∀ c ∈ g4, c ≠ '-' :=
    fun c hc => hex_ne_hyphen (hx c (by simp [List.mem_append, hc]))
  have hg5 : ∀ c ∈ g5, c ≠ '-' :=
    fun c hc => hex_ne_hyphen (hx c (by simp [List.mem_append, hc]))
  rw [show g1 ++ '-' :: g2 ++ '-' :: g3 ++ '-' :: g4 ++ '-' :: g5 =
      g1 ++ ('-' :: (g2 ++ ('-' :: (g3 ++ ('-' :: (g4 ++ ('-' :: g5))))))) from by
    simp [List.append_assoc]]
  rw [removeHyphens_append _ hg1, removeHyphens_cons_hyphen,
    removeHyphens_append _ hg2, removeHyphens_cons_hyphen,
    removeHyphens_append _ hg3, removeHyphens_cons_hyphen,
    removeHyphens_append _ hg4, removeHyphens_cons_hyphen,
    removeHyphens_id hg5]
  simp [List.append_assoc]

/-! #### `int(hex, 16)` on a pure hex-digit string -/

/-- The accumulator step of the hex value computation. -/
theorem hexDigitsRest_all_hex : ∀ {l : List Char} (acc : Nat),
    (∀ c ∈ l, (hexVal? c).isSome) →
    hexDigitsRest l acc = some (l.foldl (fun a c => 16 * a + (hexVal? c).getD 0) acc) := by
  intro l
  induction l with
  | nil => intro acc _; rfl
  | cons c rest ih =>
    intro acc h
    obtain ⟨v, hv⟩ := Option.isSome_iff_exists.mp (h c (List.mem_cons_self _ _))
    have hc : c ≠ '_' := hex_ne_underscore (h c (List.mem_cons_self _ _))
    rw [hexDigitsRest.eq_def]
    simp only [hv, if_neg hc, List.foldl_cons, Option.getD_some]
    exact ih (16 * acc + v) (fun x hx => h x (List.mem_cons_of_mem _ hx))

/-- A nonempty all-hex string parses to its base-16 value. -/
theorem hexDigitSeq_all_hex {l : List Char} (hne : l ≠ [])
    (h : ∀ c ∈ l, (hexVal? c).isSome) :
    hexDigitSeq l = some (l.foldl (fun a c => 16 * a + (hexVal? c).getD 0) 0) := by
  cases l with
  | nil => exact absurd rfl hne
  | cons c rest =>
    obtain ⟨v, hv⟩ := Option.isSome_iff_exists.mp (h c (List.mem_cons_self _ _))
    rw [hexDigitSeq.eq_def]
    simp only [hv, List.foldl_cons, Option.getD_some, Nat.mul_zero, Nat.zero_add]
    exact hexDigitsRest_all_hex v (fun x hx => h x (List.mem_cons_of_mem _ hx))

/-- All-hex strings hit neither the `0x` prefix nor an underscore. -/
theorem hexAfterSign_all_hex {l : List Char} (hne : l ≠ [])
    (h : ∀ c ∈ l, (hexVal? c).isSome) :
    hexAfterSign l = some (l.foldl (fun a c => 16 * a + (hexVal? c).getD 0) 0) := by
  rw [hexAfterSign.eq_def]
  split
  · next _ rest2 =>
    exact absurd rfl ((hex_ne_x (h 'x' (by simp))).1)
  · next _ rest2 =>
    exact absurd rfl ((hex_ne_x (h 'X' (by simp))).2)
  · next _ _ _ =>
    exact hexDigitSeq_all_hex hne h

/-- Python `int(s, 16)` of a nonempty all-hex string: whitespace stripping, sign
and prefix handling all fall through, leaving the base-16 value. -/
theorem pyIntHex_all_hex {l : List Char} (hne : l ≠ [])
    (h : ∀ c ∈ l, (hexVal? c).isSome) :
    pyIntHex l =
      some ((l.foldl (fun a c => 16 * a + (hexVal? c).getD 0) 0 : Nat) : Int) := by
  have hws : stripWs l = l := stripWs_id (fun c hc => hex_not_ws (h c hc))
  unfold pyIntHex
  rw [hws]
  split
  · next _ rest2 =>
    exact absurd rfl (hex_ne_plus (h '+' (by simp)))
  · next _ rest2 =>
    exact absurd rfl (hex_ne_hyphen (h '-' (by simp)))
  · next _ _ _ =>
    rw [hexAfterSign_all_hex hne h]
    rfl

/-! #### Value bound and canonical rendering -/

/-- The base-16 value of a string is bounded by `16 ^ length` (seeded). -/
theorem hexFold_lt : ∀ (l : List Char), (∀ c ∈ l, (hexVal? c).isSome) → ∀ n : Nat,
    l.foldl (fun a c => 16 * a + (hexVal? c).getD 0) n < (n + 1) * 16 ^ l.length := by
  intro l
  induction l using List.reverseRecOn with
  | nil => intro _ n; simpa using Nat.lt_succ_self n
  | append_singleton l c ih =>
    intro h n
    obtain ⟨v, hv⟩ := Option.isSome_iff_exists.mp (h c (by simp))
    have hv16 : v < 16 := (hexVal_facts hv).1
    have hF := ih (fun x hx => h x (by simp [hx])) n
    rw [List.foldl_append, List.foldl_cons, List.foldl_nil, hv]
    simp only [Option.getD_some, List.length_append, List.length_cons, List.length_nil]
    calc 16 * List.foldl (fun a c => 16 * a + (hexVal? c).getD 0) n l + v
        < 16 * (List.foldl (fun a c => 16 * a + (hexVal? c).getD 0) n l + 1) := by omega
      _ ≤ 16 * ((n + 1) * 16 ^ l.length) :=
        Nat.mul_le_mul_left 16 (Nat.succ_le_of_lt hF)
      _ = (n + 1) * 16 ^ (l.length + (0 + 1)) := by ring

/-- Rendering the value of an all-hex string at its own width recovers the
string, lowercased — `%032x` output digit by digit. -/
theorem renderHex_foldl : ∀ (l : List Char), (∀ c ∈ l, (hexVal? c).isSome) → ∀ n : Nat,
    renderHex l.length (l.foldl (fun a c => 16 * a + (hexVal? c).getD 0) n) =
      l.map Char.toLower := by
  intro l
  induction l using List.reverseRecOn with
  | nil => intro _ n; rfl
  | append_singleton l c ih =>
    intro h n
    obtain ⟨v, hv⟩ := Option.isSome_iff_exists.mp (h c (by simp))
    have hv16 : v < 16 := (hexVal_facts hv).1
    rw [List.foldl_append, List.foldl_cons, List.foldl_nil, hv]
    simp only [Option.getD_some, List.length_append, List.length_cons, List.length_nil]
    rw [show l.length + (0 + 1) = l.length + 1 from rfl]
    rw [renderHex]
    have hdiv : (16 * List.foldl (fun a c => 16 * a + (hexVal? c).getD 0) n l + v) / 16 =
        List.foldl (fun a c => 16 * a + (hexVal? c).getD 0) n l := by omega
    have hmod : (16 * List.foldl (fun a c => 16 * a + (hexVal? c).getD 0) n l + v) % 16 =
        v := by omega
    rw [hdiv, hmod]
    rw [ih (fun x hx => h x (by simp [hx])) n]
    rw [(hexVal_facts hv).2.1]
    simp

/-- Assembling the canonical string from five rendered groups. -/
theorem uuidCanonical_concat {m1 m2 m3 m4 m5 : List Char}
    (h1 : m1.length = 8) (h2 : m2.length = 4) (h3 : m3.length = 4) (h4 : m4.length = 4)
    (h5 : m5.length = 12) (v : Nat)
    (hrender : renderHex 32 v = m1 ++ (m2 ++ (m3 ++ (m4 ++ m5)))) :
    uuidCanonical v =
      String.mk (m1 ++ '-' :: m2 ++ '-' :: m3 ++ '-' :: m4 ++ '-' :: m5) := by
  simp only [uuidCanonical]
  rw [hrender]
  have e1 : (m1 ++ (m2 ++ (m3 ++ (m4 ++ m5)))).take 8 = m1 := by
    rw [← h1]; exact take_append_left _ _
  have d8 : (m1 ++ (m2 ++ (m3 ++ (m4 ++ m5)))).drop 8 = m2 ++ (m3 ++ (m4 ++ m5)) := by
    rw [← h1]; exact drop_append_left _ _
  have d12 : (m1 ++ (m2 ++ (m3 ++ (m4 ++ m5)))).drop 12 = m3 ++ (m4 ++ m5) := by
    rw [show m1 ++ (m2 ++ (m3 ++ (m4 ++ m5))) = (m1 ++ m2) ++ (m3 ++ (m4 ++ m5)) from by
      simp [List.append_assoc]]
    rw [show (12 : Nat) = (m1 ++ m2).length from by simp [h1, h2]]
    exact drop_append_left _ _
  have d16 : (m1 ++ (m2 ++ (m3 ++ (m4 ++ m5)))).drop 16 = m4 ++ m5 := by
    rw [show m1 ++ (m2 ++ (m3 ++ (m4 ++ m5))) = ((m1 ++ m2) ++ m3) ++ (m4 ++ m5) from by
      simp [List.append_assoc]]
    rw [show (16 : Nat) = ((m1 ++ m2) ++ m3).length from by simp [h1, h2, h3]]
    exact drop_append_left _ _
  have d20 : (m1 ++ (m2 ++ (m3 ++ (m4 ++ m5)))).drop 20 = m5 := by
    rw [show m1 ++ (m2 ++ (m3 ++ (m4 ++ m5))) = (((m1 ++ m2) ++ m3) ++ m4) ++ m5 from by
      simp [List.append_assoc]]
    rw [show (20 : Nat) = (((m1 ++ m2) ++ m3) ++ m4).length from by simp [h1, h2, h3, h4]]
    exact drop_append_left _ _
  rw [e1, d8, d12, d16, d20]
  rw [show (m2 ++ (m3 ++ (m4 ++ m5))).take 4 = m2 from by rw [← h2]; exact take_append_left _ _]
  rw [show (m3 ++ (m4 ++ m5)).take 4 = m3 from by rw [← h3]; exact take_append_left _ _]
  rw [show (m4 ++ m5).take 4 = m4 from by rw [← h4]; exact take_append_left _ _]

/-- A UUID-shaped string has length 36. -/
theorem uuidShape_length {l : List Char} (h : UuidShape l) : l.length = 36 := by
  obtain ⟨g1, g2, g3, g4, g5, h1, h2, h3, h4, h5, _, hl⟩ := h
  subst hl
  simp [h1, h2, h3, h4, h5]

/-- Claim C8 (amended), acceptance direction: `_uuid` accepts every string
in the canonical hyphenated 8-4-4-4-12 hex format (either case) and stores
exactly its lowercased form — the canonical UUID string. -/
theorem uuid_canonical_of_shape (s : String) (h : UuidShape s.data) :
    _uuid s = some (String.mk (s.data.map Char.toLower)) := by
  obtain ⟨g1, g2, g3, g4, g5, h1, h2, h3, h4, h5, hx, hl⟩ := h
  have hclean : uuidClean s.data = g1 ++ g2 ++ g3 ++ g4 ++ g5 := by
    rw [hl]; exact uuidClean_shape hx
  have hlen : (g1 ++ g2 ++ g3 ++ g4 ++ g5).length = 32 := by
    simp [h1, h2, h3, h4, h5]
  have hne : g1 ++ g2 ++ g3 ++ g4 ++ g5 ≠ [] := by
    intro hnil
    rw [hnil] at hlen
    simp at hlen
  have hbound := hexFold_lt (g1 ++ g2 ++ g3 ++ g4 ++ g5) hx 0
  rw [hlen] at hbound
  have hboundN : (g1 ++ g2 ++ g3 ++ g4 ++ g5).foldl
      (fun a c => 16 * a + (hexVal? c).getD 0) 0 < 2 ^ 128 := by
    have h16 : (16 : Nat) ^ 32 = 2 ^ 128 := by norm_num
    omega
  simp only [_uuid]
  rw [hclean]
  rw [if_neg (by simp [h1, h2, h3, h4, h5])]
  rw [pyIntHex_all_hex hne hx]
  simp only [Int.toNat_natCast]
  rw [if_pos ⟨Int.natCast_nonneg _, by exact_mod_cast hboundN⟩]
  have hrender : renderHex 32
      ((g1 ++ g2 ++ g3 ++ g4 ++ g5).foldl (fun a c => 16 * a + (hexVal? c).getD 0) 0) =
      (g1.map Char.toLower) ++ ((g2.map Char.toLower) ++ ((g3.map Char.toLower) ++
        ((g4.map Char.toLower) ++ (g5.map Char.toLower)))) := by
    rw [show (32 : Nat) = (g1 ++ g2 ++ g3 ++ g4 ++ g5).length from hlen.symm]
    rw [renderHex_foldl (g1 ++ g2 ++ g3 ++ g4 ++ g5) hx 0]
    simp [List.append_assoc]
  rw [uuidCanonical_concat (by simp [h1]) (by simp [h2]) (by simp [h3]) (by simp [h4])
    (by simp [h5]) _ hrender]
  have hlow : ('-').toLower = '-' := by decide
  rw [hl]
  simp [hlow, List.append_assoc]

set_option maxRecDepth 40000 in
/-- Claim C8, counterexample to the claim as stated: a 33-character string
with a single hyphen in a non-UUID position is not UUID-formatted, yet
`uuid.UUID` deletes all hyphens before parsing, so construction succeeds
(and stores the zero UUID). -/
theorem uuid_accepts_non_uuid_cex :
    ¬ UuidShape ("0000000000000000-0000000000000000" : String).data ∧
    _uuid "0000000000000000-0000000000000000" =
      some "00000000-0000-0000-0000-000000000000" := by
  constructor
  · intro h
    have h36 := uuidShape_length h
    have h33 : ("0000000000000000-0000000000000000" : String).data.length = 33 := by decide
    rw [h33] at h36
    exact absurd h36 (by decide)
  · decide

/-- Witness for C8: an uppercase canonical UUID is accepted and lowercased. -/
theorem uuid_canonical_of_shape_witness :
    _uuid "123E4567-E89B-12D3-A456-426614174000" =
      some "123e4567-e89b-12d3-a456-426614174000" := by
  have h := uuid_canonical_of_shape "123E4567-E89B-12D3-A456-426614174000"
    ⟨"123E4567".data, "E89B".data, "12D3".data, "A456".data, "426614174000".data,
     by decide, by decide, by decide, by decide, by decide, by decide, by decide⟩
  rw [h]
  rfl

end Spokestack
